import Mathlib

/-!
Verification of `src/Pi_Birthday_Finder.py` (`finde_geburtsdatum_in_pi`).

Strings are embedded as `List Char`.  The Python function validates a date
with `datetime.strptime(geburtsdatum, "%d.%m.%Y")`, optionally validates a
time against the regex `^\d{2}\.\d{2}$`, builds a search pattern by removing
the dots from the input strings, computes pi with mpmath at
`mp.dps = max_stellen + 100`, takes the fractional digits of `str(mp.pi)`
and searches the pattern in them with `str.find`.

CPython behaviour that the embedding mirrors (checked against CPython's
`_strptime.py` and the `re` module documentation):
  the `%d` field regex is `3[0-1]|[1-2]\d|0[1-9]|[1-9]| [1-9]` (one digit
  1-9, two digits 01-31, or a space followed by one digit 1-9),
  the `%m` field regex is `1[0-2]|0[1-9]|[1-9]`,
  the `%Y` field regex is `\d\d\d\d` (exactly four digits),
  the whole input must be consumed, and `datetime` additionally requires
  `MINYEAR = 1 <= year` and the day to fit the month (Gregorian leap rule);
  the regex `$` anchor also matches just before one trailing newline.
`\d` and `int()` are modelled for ASCII digit strings (the Unicode-digit
corner of Python's `re`/`int` is outside the scope of this development).
-/

set_option maxRecDepth 100000

/-- Decimal value of an ASCII digit character. -/
def ziffernWert (c : Char) : Nat := c.toNat - 48

/-- Value of a list of ASCII digit characters read as a decimal numeral,
models Python's `int()` on the matched field. -/
def feldWert (s : List Char) : Nat := s.foldl (fun n c => 10 * n + ziffernWert c) 0

/-- Split a character list at every dot, like Python's `str.split('.')`,
used to decompose the `%d.%m.%Y` input into its three fields (the fields of
the format are digit-only, so the regex decomposition of `_strptime`
coincides with splitting at the dots). -/
def splitPunkte : List Char → List (List Char)
  | [] => [[]]
  | c :: cs =>
    if c = '.' then [] :: splitPunkte cs
    else
      match splitPunkte cs with
      | [] => [[c]]
      | f :: r => (c :: f) :: r

/-- The day field of `%d`: the `_strptime` regex `3[0-1]|[1-2]\d|0[1-9]|[1-9]| [1-9]`,
one digit 1-9, a space followed by one digit 1-9, or two digits with value 1..31. -/
def tagFeld? : List Char → Option Nat
  | [c] => if '1' ≤ c ∧ c ≤ '9' then some (ziffernWert c) else none
  | [' ', c] => if '1' ≤ c ∧ c ≤ '9' then some (ziffernWert c) else none
  | [a, b] =>
    if a.isDigit ∧ b.isDigit ∧ 1 ≤ feldWert [a, b] ∧ feldWert [a, b] ≤ 31 then
      some (feldWert [a, b])
    else none
  | _ => none

/-- The month field of `%m`: the `_strptime` regex `1[0-2]|0[1-9]|[1-9]`,
one digit 1-9 or two digits with value 1..12. -/
def monatFeld? : List Char → Option Nat
  | [c] => if '1' ≤ c ∧ c ≤ '9' then some (ziffernWert c) else none
  | [a, b] =>
    if a.isDigit ∧ b.isDigit ∧ 1 ≤ feldWert [a, b] ∧ feldWert [a, b] ≤ 12 then
      some (feldWert [a, b])
    else none
  | _ => none

/-- The year field of `%Y`: the `_strptime` regex `\d\d\d\d`, exactly four digits. -/
def jahrFeld? : List Char → Option Nat
  | [a, b, c, d] =>
    if a.isDigit ∧ b.isDigit ∧ c.isDigit ∧ d.isDigit then
      some (feldWert [a, b, c, d])
    else none
  | _ => none

/-- Gregorian leap-year rule, as used by `datetime`. -/
def istSchaltjahr (jahr : Nat) : Bool :=
  jahr % 4 == 0 && (jahr % 100 != 0 || jahr % 400 == 0)

/-- Days in a month, as used by `datetime` to validate the day. -/
def tageImMonat (monat jahr : Nat) : Nat :=
  if monat = 2 then (if istSchaltjahr jahr then 29 else 28)
  else if monat = 4 ∨ monat = 6 ∨ monat = 9 ∨ monat = 11 then 30
  else 31

/-- Models `datetime.strptime(s, "%d.%m.%Y")` (line 20 of the source):
`some (day, month, year)` when the parse succeeds, `none` when it raises
`ValueError`.  The whole string must decompose as day `.` month `.` year
with the field shapes above, and `datetime` additionally requires
`1 <= year` and the day to exist in the month. -/
def strptimeTagMonatJahr (s : List Char) : Option (Nat × Nat × Nat) :=
  match splitPunkte s with
  | [t, m, j] =>
    match tagFeld? t, monatFeld? m, jahrFeld? j with
    | some tag, some monat, some jahr =>
      if 1 ≤ jahr ∧ tag ≤ tageImMonat monat jahr then some (tag, monat, jahr) else none
    | _, _, _ => none
  | _ => none

/-- Models `re.match(r'^\d{2}\.\d{2}$', geburtszeit)` (line 29 of the source):
two digits, a dot, two digits — optionally followed by one newline, because
Python's `$` also matches just before a trailing newline. -/
def zeitFormatOk : List Char → Bool
  | [a, b, pkt, c, d] =>
    a.isDigit && b.isDigit && pkt == '.' && c.isDigit && d.isDigit
  | [a, b, pkt, c, d, nl] =>
    a.isDigit && b.isDigit && pkt == '.' && c.isDigit && d.isDigit && nl == '\n'
  | _ => false

/-- Models `s.replace(".", "")` (lines 25 and 31 of the source). -/
def entfernePunkte (s : List Char) : List Char := s.filter (fun c => c != '.')

/-- `beginntMit muster text` is true when `muster` is an initial segment of
`text` (helper for the substring search). -/
def beginntMit : List Char → List Char → Bool
  | [], _ => true
  | _ :: _, [] => false
  | p :: ps, x :: xs => p == x && beginntMit ps xs

/-- Models Python's `text.find(muster)` (line 41 of the source): the least
index at which `muster` occurs in `text`, as `some index`, and `none` in
place of Python's `-1`. -/
def suche (muster : List Char) : List Char → Option Nat
  | [] => if beginntMit muster [] then some 0 else none
  | x :: xs =>
    if beginntMit muster (x :: xs) then some 0
    else (suche muster xs).map (fun n => n + 1)

/-- The fields of the success dictionary built on lines 52-113 of the source.
The `wanderung` entry (lines 82-96) is a display string computed with IEEE-754
double arithmetic and `printf`-style rounding; it is a function of `position`
alone but its exact text is not modelled here (see claim C8). -/
structure Treffer where
  suchstring : List Char
  position : Nat
  laenge : Nat
  stunden : Nat
  minuten : Nat
  seite : Nat
  zeile : Nat
  kontext : List Char
  piPosition : List Char
deriving DecidableEq, Repr

/-- The three result shapes of `finde_geburtsdatum_in_pi`: the error
dictionary `{"fehler": ...}`, the not-found dictionary (lines 44-49, whose
message texts are determined by the carried search string and digit budget),
and the success dictionary. -/
inductive Ergebnis where
  | fehler (meldung : List Char)
  | nichtGefunden (suchstring : List Char) (maxStellen : Nat)
  | gefunden (t : Treffer)
deriving DecidableEq, Repr

/-- The error message of line 22 of the source. -/
def datumsFehler : List Char := "Ungültiges Datumsformat. Bitte DD.MM.YYYY verwenden.".data

/-- The error message of line 30 of the source. -/
def zeitFehler : List Char := "Ungültiges Zeitformat. Bitte HH.MM verwenden.".data

/-- Lines 41-113 of the source: search `suchstring` in the fractional digits
and assemble the result dictionary. -/
def ergebnisAus (nachkommastellen suchstring : List Char) (maxStellen : Nat) : Ergebnis :=
  match suche suchstring nachkommastellen with
  | none => Ergebnis.nichtGefunden suchstring maxStellen
  | some position =>
    let laenge := suchstring.length
    let zeitSekunden := position * 2
    let stunden := zeitSekunden / 3600
    let minuten := zeitSekunden % 3600 / 60
    let ziffernProSeite := 50 * 80
    let seite := position / ziffernProSeite + 1
    let zeile := position % ziffernProSeite / 80 + 1
    let start := position - 10
    let ende := min nachkommastellen.length (position + laenge + 10)
    let kontext := (nachkommastellen.take ende).drop start
    let markierungStart := position - start
    let markierungEnde := markierungStart + laenge
    let kontextMarkiert :=
      kontext.take markierungStart
        ++ '[' :: ((kontext.take markierungEnde).drop markierungStart)
        ++ ']' :: kontext.drop markierungEnde
    Ergebnis.gefunden
      { suchstring := suchstring
        position := position
        laenge := laenge
        stunden := stunden
        minuten := minuten
        seite := seite
        zeile := zeile
        kontext := "...".data ++ kontextMarkiert ++ "...".data
        piPosition := '3' :: ',' :: nachkommastellen.take position
          ++ '[' :: suchstring ++ ']' :: "...".data }

/-- `finde_geburtsdatum_in_pi`, parametric in the digit generator that stands
for lines 34-38 (`mp.dps = max_stellen + 100; str(mp.pi)` and the split at
the decimal point): `ziffern maxStellen` is the fractional digit string that
gets searched.  The control flow mirrors lines 18-41 of the source: date
validation first, then — only when `geburtszeit` is truthy, i.e. present and
non-empty — the time shape check and the appending of the time digits. -/
def findeGeburtsdatumInPiMit (ziffern : Nat → List Char) (geburtsdatum : List Char)
    (geburtszeit : Option (List Char)) (maxStellen : Nat) : Ergebnis :=
  match strptimeTagMonatJahr geburtsdatum with
  | none => Ergebnis.fehler datumsFehler
  | some _ =>
    let suchstring := entfernePunkte geburtsdatum
    match geburtszeit with
    | some z =>
      if z.isEmpty then ergebnisAus (ziffern maxStellen) suchstring maxStellen
      else if zeitFormatOk z then
        ergebnisAus (ziffern maxStellen) (suchstring ++ entfernePunkte z) maxStellen
      else Ergebnis.fehler zeitFehler
    | none => ergebnisAus (ziffern maxStellen) suchstring maxStellen

/-- The first 200 fractional digits of pi (a published mathematical
constant, checkable against any digit table). -/
def piNachkomma200 : List Char :=
  ("14159265358979323846264338327950288419716939937510" ++
   "58209749445923078164062862089986280348253421170679" ++
   "82148086513282306647093844609550582231725359408128" ++
   "48111745028410270193852110555964462294895493038196").data

/-- Increment a reversed decimal digit string by one, with carry (helper for
the round-to-nearest step of the mpmath output model). -/
def plusEinsUmgekehrt : List Char → List Char
  | [] => ['1']
  | c :: cs => if c = '9' then '0' :: plusEinsUmgekehrt cs else Char.ofNat (c.toNat + 1) :: cs

/-- Increment a decimal digit string by one. -/
def ziffernPlusEins (s : List Char) : List Char := (plusEinsUmgekehrt s.reverse).reverse

/-- Remove trailing '0' characters, as mpmath's string conversion strips
trailing zeros from the printed digits. -/
def ohneEndNullen (s : List Char) : List Char :=
  (s.reverse.dropWhile (fun c => c == '0')).reverse

/-- Modelled from the external mpmath dependency (not part of this
repository): with `mp.dps = n`, `str(mp.pi)` is `3.` followed by the decimal
expansion of pi ROUNDED to `n` significant digits — the leading `3` counts
as one of them — with trailing zeros stripped, so `pi_str.split('.')[1]` on
line 38 has at most `n - 1` fractional digits; with `n = maxStellen + 100`
from line 34 that is at most `maxStellen + 99`, and fewer exactly when the
rounding produces trailing zeros (e.g. `maxStellen = 1`: fractional digits
100 and 101 of pi are 9 and 8, so ...170679 rounds to ...170680 and the
zero is stripped, leaving 99 digits).  The model rounds the 200-digit table
at the cut using the next digit and strips trailing zeros; it is faithful
for `maxStellen ≤ 101` (beyond the table it merely truncates), except at a
cut that a 4999.../5000... digit run straddles — none of the cuts used in
the theorems below is of that kind (the decision digits there are 8 at the
`maxStellen = 1` cut and 2 at the `maxStellen = 2` cut). -/
def mpmathNachkommastellen (maxStellen : Nat) : List Char :=
  let n := maxStellen + 99
  let basis := piNachkomma200.take n
  let gerundet :=
    if '5' ≤ piNachkomma200.getD n '0' then ziffernPlusEins basis else basis
  ohneEndNullen gerundet

/-- `finde_geburtsdatum_in_pi` itself: the parametric function applied to the
mpmath digit model. -/
def findeGeburtsdatumInPi (geburtsdatum : List Char) (geburtszeit : Option (List Char))
    (maxStellen : Nat) : Ergebnis :=
  findeGeburtsdatumInPiMit mpmathNachkommastellen geburtsdatum geburtszeit maxStellen

/-- The `position` entry of the result, when present. -/
def positionVon : Ergebnis → Option Nat
  | Ergebnis.gefunden t => some t.position
  | _ => none

/-- The `laenge` entry of the result, when present. -/
def laengeVon : Ergebnis → Option Nat
  | Ergebnis.gefunden t => some t.laenge
  | _ => none

/-- The `suchstring` entry of the result, when present. -/
def suchstringVon : Ergebnis → Option (List Char)
  | Ergebnis.gefunden t => some t.suchstring
  | Ergebnis.nichtGefunden s _ => some s
  | Ergebnis.fehler _ => none

/-- The page number of the `buch_position` entry, when present. -/
def seiteVon : Ergebnis → Option Nat
  | Ergebnis.gefunden t => some t.seite
  | _ => none

/-- The line number of the `buch_position` entry, when present. -/
def zeileVon : Ergebnis → Option Nat
  | Ergebnis.gefunden t => some t.zeile
  | _ => none

/-- The `kontext` entry of the result, when present. -/
def kontextVon : Ergebnis → Option (List Char)
  | Ergebnis.gefunden t => some t.kontext
  | _ => none

/-- Whether the result is the error dictionary. -/
def istFehler : Ergebnis → Bool
  | Ergebnis.fehler _ => true
  | _ => false

/-- Whether the result reports `gefunden = True`. -/
def istGefunden : Ergebnis → Bool
  | Ergebnis.gefunden _ => true
  | _ => false

/-- The claim's truthiness condition on the optional time argument, as
Python's `if geburtszeit:` evaluates it. -/
def zeitWahr : Option (List Char) → Bool
  | none => false
  | some z => !z.isEmpty

/-- The overall validation verdict: the date parses, and the time — when
truthy — passes the shape check.  Exactly the inputs on which the source
reaches the search. -/
def eingabeOk (geburtsdatum : List Char) (geburtszeit : Option (List Char)) : Bool :=
  (strptimeTagMonatJahr geburtsdatum).isSome &&
    (match geburtszeit with
     | none => true
     | some z => z.isEmpty || zeitFormatOk z)

/-- The digits the time argument contributes to the search pattern:  nothing
when absent or empty, its characters without the dot otherwise. -/
def zeitAnteil : Option (List Char) → List Char
  | none => []
  | some z => if z.isEmpty then [] else entfernePunkte z

/-- The search pattern the source builds on lines 25 and 31: the date string
without its dots, then the time digits. -/
def musterAus (geburtsdatum : List Char) (geburtszeit : Option (List Char)) : List Char :=
  entfernePunkte geburtsdatum ++ zeitAnteil geburtszeit

/-- Modelled from the spec's words, for comparison with the pattern the
source builds (claim C2): the concatenation of day, month and year
zero-padded to 2, 2 and 4 digits, followed by the time components zero-padded
to 2 digits each. -/
def spezifikationsMuster (tag monat jahr : Nat) (zeit : Option (Nat × Nat)) : List Char :=
  let zwei := fun n => [Char.ofNat (48 + n / 10 % 10), Char.ofNat (48 + n % 10)]
  let vier := fun n => [Char.ofNat (48 + n / 1000 % 10), Char.ofNat (48 + n / 100 % 10),
    Char.ofNat (48 + n / 10 % 10), Char.ofNat (48 + n % 10)]
  zwei tag ++ zwei monat ++ vier jahr ++
    (match zeit with
     | some (h, m) => zwei h ++ zwei m
     | none => [])

/-- A successful prefix test gives the prefix back as a `take`. -/
theorem beginntMit_take : ∀ {muster text : List Char}, beginntMit muster text = true →
    text.take muster.length = muster
  | [], _, _ => rfl
  | _ :: _, [], h => by simp [beginntMit] at h
  | p :: ps, x :: xs, h => by
    simp only [beginntMit, Bool.and_eq_true, beq_iff_eq] at h
    rw [List.length_cons, List.take_succ_cons, beginntMit_take h.2, h.1]

/-- A successful prefix test bounds the prefix length. -/
theorem beginntMit_laenge {muster text : List Char} (h : beginntMit muster text = true) :
    muster.length ≤ text.length := by
  have h2 := congrArg List.length (beginntMit_take h)
  rw [List.length_take] at h2
  omega

/-- Correctness of the substring search: a reported index carries the pattern
at that offset, and the occurrence lies inside the text. -/
theorem suche_some {muster : List Char} : ∀ (text : List Char) {p : Nat},
    suche muster text = some p →
    (text.drop p).take muster.length = muster ∧ p + muster.length ≤ text.length := by
  intro text
  induction text with
  | nil =>
    intro p h
    unfold suche at h
    split at h
    · next hb =>
      injection h with h0
      subst h0
      have hl := beginntMit_laenge hb
      exact ⟨beginntMit_take hb, by simpa using hl⟩
    · exact absurd h (by simp)
  | cons x xs ih =>
    intro p h
    unfold suche at h
    split at h
    · next hb =>
      injection h with h0
      subst h0
      have hl := beginntMit_laenge hb
      exact ⟨beginntMit_take hb, by simpa using hl⟩
    · next hb =>
      rcases Option.map_eq_some'.mp h with ⟨q, hq, hp⟩
      subst hp
      obtain ⟨h1, h2⟩ := ih hq
      refine ⟨by simpa [List.drop_succ_cons] using h1, ?_⟩
      rw [List.length_cons]
      omega

/-- On inputs that pass both validations, the function reduces to the search
step applied to the generated digits and the assembled pattern. -/
theorem finde_gleich_ergebnisAus (ziffern : Nat → List Char) (geburtsdatum : List Char)
    (geburtszeit : Option (List Char)) (maxStellen : Nat)
    (h : eingabeOk geburtsdatum geburtszeit = true) :
    findeGeburtsdatumInPiMit ziffern geburtsdatum geburtszeit maxStellen =
      ergebnisAus (ziffern maxStellen) (musterAus geburtsdatum geburtszeit) maxStellen := by
  unfold eingabeOk at h
  rw [Bool.and_eq_true] at h
  obtain ⟨hd, hz⟩ := h
  unfold findeGeburtsdatumInPiMit musterAus
  cases hdd : strptimeTagMonatJahr geburtsdatum with
  | none => rw [hdd] at hd; simp at hd
  | some v =>
    cases geburtszeit with
    | none => simp [zeitAnteil]
    | some z =>
      by_cases hze : z.isEmpty
      · simp [hze, zeitAnteil]
      · simp only [hze, Bool.false_or] at hz
        simp [hze, hz, zeitAnteil]

/-- The error dictionary the source returns for a rejected input: the date
message when the date failed to parse, the time message otherwise. -/
def fehlerMeldungFuer (geburtsdatum : List Char) : List Char :=
  if (strptimeTagMonatJahr geburtsdatum).isSome then zeitFehler else datumsFehler

/-- On inputs that fail validation the function returns the corresponding
error dictionary, whatever the digit generator is. -/
theorem finde_bei_fehler (ziffern : Nat → List Char) (geburtsdatum : List Char)
    (geburtszeit : Option (List Char)) (maxStellen : Nat)
    (h : eingabeOk geburtsdatum geburtszeit = false) :
    findeGeburtsdatumInPiMit ziffern geburtsdatum geburtszeit maxStellen =
      Ergebnis.fehler (fehlerMeldungFuer geburtsdatum) := by
  unfold eingabeOk at h
  unfold findeGeburtsdatumInPiMit fehlerMeldungFuer
  cases hdd : strptimeTagMonatJahr geburtsdatum with
  | none => simp [hdd]
  | some v =>
    rw [hdd] at h
    simp only [Option.isSome_some, Bool.true_and] at h
    cases geburtszeit with
    | none => simp at h
    | some z =>
      rw [Bool.or_eq_false_iff] at h
      simp [hdd, h.1, h.2]

/-- The search step never yields the error dictionary. -/
theorem ergebnisAus_ne_fehler (nachkommastellen suchstring : List Char) (maxStellen : Nat)
    (meldung : List Char) :
    ergebnisAus nachkommastellen suchstring maxStellen ≠ Ergebnis.fehler meldung := by
  unfold ergebnisAus
  cases suche suchstring nachkommastellen <;> simp

/-- Inversion: a reported position means both validations passed and the
search succeeded at that index. -/
theorem positionVon_some {ziffern : Nat → List Char} {geburtsdatum : List Char}
    {geburtszeit : Option (List Char)} {maxStellen p : Nat}
    (h : positionVon (findeGeburtsdatumInPiMit ziffern geburtsdatum geburtszeit maxStellen) =
      some p) :
    eingabeOk geburtsdatum geburtszeit = true ∧
      suche (musterAus geburtsdatum geburtszeit) (ziffern maxStellen) = some p := by
  by_cases he : eingabeOk geburtsdatum geburtszeit
  · refine ⟨he, ?_⟩
    rw [finde_gleich_ergebnisAus _ _ _ _ he] at h
    unfold ergebnisAus at h
    cases hs : suche (musterAus geburtsdatum geburtszeit) (ziffern maxStellen) with
    | none => rw [hs] at h; simp [positionVon] at h
    | some q =>
      rw [hs] at h
      simp only [positionVon, Option.some.injEq] at h
      rw [h]
  · rw [Bool.not_eq_true] at he
    rw [finde_bei_fehler _ _ _ _ he] at h
    simp [positionVon] at h

/-- A digit generator that yields no digits (used to exhibit independence of
the validation result from the digit generation). -/
def nullZiffern : Nat → List Char := fun _ => []

/-- A digit generator that yields a single digit (used to exhibit
independence of the validation result from the digit generation). -/
def einsZiffern : Nat → List Char := fun _ => ['1']

/-- A digit generator whose output contains the date-only pattern of
"01.01.2000" (used to exhibit that the empty-time path consults the
generated digits). -/
def musterZiffern : Nat → List Char := fun _ => "01012000".data

/-- C3, counterexample: the empty string is a provided time that fails the
two-two-digit shape check, yet the function returns no validation error for
it and proceeds to the search — and the outcome depends on the generated
digits (not found over an empty generation, found over a generation
containing the pattern), so pi digits ARE generated on this
validation-failure path. -/
theorem c3_gegenbeispiel :
    zeitFormatOk [] = false ∧
      istFehler (findeGeburtsdatumInPi ("01.01.2000".data) (some []) 2) = false ∧
      findeGeburtsdatumInPiMit nullZiffern ("01.01.2000".data) (some []) 2 ≠
        findeGeburtsdatumInPiMit musterZiffern ("01.01.2000".data) (some []) 2 :=
  ⟨by decide, by decide, by decide⟩

/-- C3 (corrected): on every input whose date fails the
day-month-4-digit-year parse, and on every input whose provided NON-EMPTY
time fails the shape check, the function returns the corresponding
validation-error dictionary — the date message when the date failed, the
time message otherwise — and the result is the same for every digit
generator and budget, so no pi digits influence it and none need to be
generated on either failure path.  (A provided EMPTY time also fails the
shape check, but Python's truthiness test treats it as absent: no error is
returned, the search runs, and pi digits are generated — the
counterexample above; compare C5 and C10.) -/
theorem c3_validierung_vor_pi (ziffern1 ziffern2 : Nat → List Char) (geburtsdatum : List Char)
    (geburtszeit : Option (List Char)) (maxStellen1 maxStellen2 : Nat)
    (h : eingabeOk geburtsdatum geburtszeit = false) :
    findeGeburtsdatumInPiMit ziffern1 geburtsdatum geburtszeit maxStellen1 =
        Ergebnis.fehler (fehlerMeldungFuer geburtsdatum) ∧
      findeGeburtsdatumInPiMit ziffern1 geburtsdatum geburtszeit maxStellen1 =
        findeGeburtsdatumInPiMit ziffern2 geburtsdatum geburtszeit maxStellen2 := by
  have h1 := finde_bei_fehler ziffern1 geburtsdatum geburtszeit maxStellen1 h
  have h2 := finde_bei_fehler ziffern2 geburtsdatum geburtszeit maxStellen2 h
  exact ⟨h1, h1.trans h2.symm⟩

/-- Witness for C3 at a valid date with a malformed time. -/
theorem c3_zeuge :
    findeGeburtsdatumInPiMit nullZiffern ("15.03.1990".data) (some ("1.30".data)) 7 =
        Ergebnis.fehler (fehlerMeldungFuer ("15.03.1990".data)) ∧
      findeGeburtsdatumInPiMit nullZiffern ("15.03.1990".data) (some ("1.30".data)) 7 =
        findeGeburtsdatumInPiMit einsZiffern ("15.03.1990".data) (some ("1.30".data)) 9 :=
  c3_validierung_vor_pi nullZiffern einsZiffern ("15.03.1990".data) (some ("1.30".data)) 7 9
    (by decide)

/-- C5, counterexample: the empty string is a provided time that does not
match the two-two-digit shape, yet the function returns no validation error
for it (Python's `if geburtszeit:` treats the empty string as absent). -/
theorem c5_gegenbeispiel :
    zeitFormatOk [] = false ∧
      istFehler (findeGeburtsdatumInPi ("15.03.1990".data) (some []) 2) = false :=
  ⟨by decide, by decide⟩

/-- C5 (corrected): for a valid date and a provided NON-EMPTY time string,
the time validation error is returned exactly when the string fails the
two-two-digit shape check of the regex; no numeric range check is applied. -/
theorem c5_zeitvalidierung (ziffern : Nat → List Char) (geburtsdatum zeit : List Char)
    (maxStellen : Nat) (hd : (strptimeTagMonatJahr geburtsdatum).isSome = true)
    (hz : zeit.isEmpty = false) :
    findeGeburtsdatumInPiMit ziffern geburtsdatum (some zeit) maxStellen =
        Ergebnis.fehler zeitFehler ↔ zeitFormatOk zeit = false := by
  unfold findeGeburtsdatumInPiMit
  cases hdd : strptimeTagMonatJahr geburtsdatum with
  | none => rw [hdd] at hd; simp at hd
  | some v =>
    simp only [hz, Bool.false_eq_true, if_false]
    by_cases hf : zeitFormatOk zeit
    · simp only [hf, if_true]
      constructor
      · intro hcontra
        exact absurd hcontra (ergebnisAus_ne_fehler _ _ _ _)
      · intro hcontra
        exact absurd hcontra (by decide)
    · rw [Bool.not_eq_true] at hf
      simp [hf]

/-- Witness for C5: the semantically impossible time "99.99" passes the
shape check and produces no validation error. -/
theorem c5_zeuge :
    ¬(findeGeburtsdatumInPiMit mpmathNachkommastellen ("15.03.1990".data)
        (some ("99.99".data)) 2 = Ergebnis.fehler zeitFehler) := by
  intro h
  have h2 := (c5_zeitvalidierung mpmathNachkommastellen ("15.03.1990".data) ("99.99".data) 2
    (by decide) (by decide)).mp h
  exact absurd h2 (by decide)

/-- C9 (confirmed): the function is deterministic — two calls with equal
date, equal time and equal precision budget return equal results, every
derived field included. -/
theorem c9_determinismus (datum1 datum2 : List Char) (zeit1 zeit2 : Option (List Char))
    (stellen1 stellen2 : Nat) (hd : datum1 = datum2) (hz : zeit1 = zeit2)
    (hs : stellen1 = stellen2) :
    findeGeburtsdatumInPi datum1 zeit1 stellen1 = findeGeburtsdatumInPi datum2 zeit2 stellen2 := by
  rw [hd, hz, hs]

/-- Witness for C9. -/
theorem c9_zeuge :
    findeGeburtsdatumInPi ("23.07.8164".data) (some ("12.30".data)) 2 =
      findeGeburtsdatumInPi ("23.07.8164".data) (some ("12.30".data)) 2 :=
  c9_determinismus ("23.07.8164".data) ("23.07.8164".data) (some ("12.30".data))
    (some ("12.30".data)) 2 2 rfl rfl rfl

/-- C10 (confirmed): the empty string as the time argument behaves exactly
like an absent time — Python's truthiness test skips both the shape
validation and the appending, so the result, search pattern included, is the
one of the call without a time. -/
theorem c10_leere_zeit (ziffern : Nat → List Char) (geburtsdatum : List Char)
    (maxStellen : Nat) :
    findeGeburtsdatumInPiMit ziffern geburtsdatum (some []) maxStellen =
      findeGeburtsdatumInPiMit ziffern geburtsdatum none maxStellen := by
  unfold findeGeburtsdatumInPiMit
  cases strptimeTagMonatJahr geburtsdatum <;> simp

/-- C2, counterexample: the date "5.3.1990" passes `strptime` validation
(single-digit day and month are accepted), but the pattern the source builds
is the input with its dots removed, "531990" — not the zero-padded
"05031990" the claim prescribes. -/
theorem c2_gegenbeispiel :
    strptimeTagMonatJahr ("5.3.1990".data) = some (5, 3, 1990) ∧
      suchstringVon (findeGeburtsdatumInPi ("5.3.1990".data) none 2) = some ("531990".data) ∧
      "531990".data ≠ spezifikationsMuster 5 3 1990 none :=
  ⟨by decide, by decide, by decide⟩

/-- C2 (corrected): on every input that passes validation, the search
pattern is the date string with its separator dots removed — the fields
exactly as the caller wrote them, so zero-padded only when written
zero-padded — followed, when a truthy time is given, by the time with its
dot removed.  The spec's two examples hold because their fields are written
with full width. -/
theorem c2_musteraufbau (ziffern : Nat → List Char) (geburtsdatum : List Char)
    (geburtszeit : Option (List Char)) (maxStellen : Nat)
    (h : eingabeOk geburtsdatum geburtszeit = true) :
    suchstringVon (findeGeburtsdatumInPiMit ziffern geburtsdatum geburtszeit maxStellen) =
      some (entfernePunkte geburtsdatum ++ zeitAnteil geburtszeit) := by
  rw [finde_gleich_ergebnisAus _ _ _ _ h]
  unfold ergebnisAus musterAus
  cases suche (entfernePunkte geburtsdatum ++ zeitAnteil geburtszeit) (ziffern maxStellen) <;>
    simp [suchstringVon]

/-- Witness for C2: the spec's second example, date "01.01.2000" with time
"12.30", yields the pattern "010120001230". -/
theorem c2_zeuge :
    suchstringVon (findeGeburtsdatumInPiMit mpmathNachkommastellen ("01.01.2000".data)
        (some ("12.30".data)) 2) = some ("010120001230".data) :=
  (c2_musteraufbau mpmathNachkommastellen ("01.01.2000".data) (some ("12.30".data)) 2
    (by decide)).trans (by decide)

/-- C4, counterexample: at budget 2 the searched fractional digit string has
101 digits, not 2 + 100 = 102 — mpmath's `dps` counts significant digits, so
the leading `3` uses one of the `max_stellen + 100` places. -/
theorem c4_gegenbeispiel :
    (mpmathNachkommastellen 2).length = 101 ∧ (101 : Nat) ≠ 2 + 100 :=
  ⟨by decide, by decide⟩

/-- C4 (corrected): the searched fractional digit string contains at most
`maxStellen + 99` digits — `str(mp.pi)` at `mp.dps = maxStellen + 100` shows
that many significant digits with the integer digit `3` among them.  The
count is exactly `maxStellen + 99` when the last rounded digit is nonzero
(budget 2 gives 101 digits), and smaller when round-to-nearest produces
trailing zeros that get stripped (budget 1 gives 99 digits, not 100). -/
theorem c4_stellenzahl (maxStellen : Nat) (h : maxStellen ≤ 101) :
    (mpmathNachkommastellen maxStellen).length ≤ maxStellen + 99 ∧
      (mpmathNachkommastellen 2).length = 2 + 99 ∧
      (mpmathNachkommastellen 1).length = 1 + 98 := by
  refine ⟨?_, by decide, by decide⟩
  have hb : ∀ b, b < 102 → (mpmathNachkommastellen b).length ≤ b + 99 := by decide
  exact hb maxStellen (by omega)

/-- Witness for C4 at budget 2. -/
theorem c4_zeuge :
    (mpmathNachkommastellen 2).length ≤ 2 + 99 ∧
      (mpmathNachkommastellen 2).length = 2 + 99 ∧
      (mpmathNachkommastellen 1).length = 1 + 98 :=
  c4_stellenzahl 2 (by decide)

/-- C7 (confirmed): every match at zero-based offset p reports the 1-based
book position page = p / 4000 + 1 and line = p % 4000 / 80 + 1. -/
theorem c7_buchposition (ziffern : Nat → List Char) (geburtsdatum : List Char)
    (geburtszeit : Option (List Char)) (maxStellen p : Nat)
    (h : positionVon (findeGeburtsdatumInPiMit ziffern geburtsdatum geburtszeit maxStellen) =
      some p) :
    seiteVon (findeGeburtsdatumInPiMit ziffern geburtsdatum geburtszeit maxStellen) =
        some (p / 4000 + 1) ∧
      zeileVon (findeGeburtsdatumInPiMit ziffern geburtsdatum geburtszeit maxStellen) =
        some (p % 4000 / 80 + 1) := by
  obtain ⟨he, hs⟩ := positionVon_some h
  rw [finde_gleich_ergebnisAus _ _ _ _ he]
  unfold ergebnisAus
  rw [hs]
  refine ⟨?_, ?_⟩ <;> simp [seiteVon, zeileVon]

/-- A digit string with the pattern of the date "01.01.1111" first occurring
at offset 80 — the offset of the spec's page-1-line-2 book-position example. -/
def seitenZiffern : Nat → List Char := fun _ => List.replicate 80 '9' ++ "01011111".data

/-- Witness for C7: a match at offset 80 is reported on page 1, line 2. -/
theorem c7_zeuge :
    positionVon (findeGeburtsdatumInPiMit seitenZiffern ("01.01.1111".data) none 1) =
        some 80 ∧
      seiteVon (findeGeburtsdatumInPiMit seitenZiffern ("01.01.1111".data) none 1) = some 1 ∧
      zeileVon (findeGeburtsdatumInPiMit seitenZiffern ("01.01.1111".data) none 1) = some 2 := by
  have h : positionVon (findeGeburtsdatumInPiMit seitenZiffern ("01.01.1111".data) none 1) =
      some 80 := by decide
  have h2 := c7_buchposition seitenZiffern ("01.01.1111".data) none 1 80 h
  exact ⟨h, h2.1.trans (by norm_num), h2.2.trans (by norm_num)⟩

/-- C1, counterexample: at budget B = 2 the date "23.07.8164" is found at
offset 62 with pattern length 8, and 62 is not at most B - 8: the source
searches the whole generated string (budget + safety margin), so a match may
land beyond B - len(pattern). -/
theorem c1_gegenbeispiel :
    positionVon (findeGeburtsdatumInPi ("23.07.8164".data) none 2) = some 62 ∧
      laengeVon (findeGeburtsdatumInPi ("23.07.8164".data) none 2) = some 8 ∧
      ¬((62 : Int) ≤ (2 : Int) - (8 : Int)) :=
  ⟨by decide, by decide, by decide⟩

/-- C1 (corrected): the function either reports no match, or a zero-based
offset p with 0 ≤ p and p + len(pattern) at most the length of the searched
digit string (the generated budget-plus-margin digits, not the bare budget). -/
theorem c1_trefferbereich (ziffern : Nat → List Char) (geburtsdatum : List Char)
    (geburtszeit : Option (List Char)) (maxStellen p l : Nat)
    (hp : positionVon (findeGeburtsdatumInPiMit ziffern geburtsdatum geburtszeit maxStellen) =
      some p)
    (hl : laengeVon (findeGeburtsdatumInPiMit ziffern geburtsdatum geburtszeit maxStellen) =
      some l) :
    p + l ≤ (ziffern maxStellen).length := by
  obtain ⟨he, hs⟩ := positionVon_some hp
  have hb := (suche_some (ziffern maxStellen) hs).2
  rw [finde_gleich_ergebnisAus _ _ _ _ he] at hl
  unfold ergebnisAus at hl
  rw [hs] at hl
  simp only [laengeVon, Option.some.injEq] at hl
  omega

/-- Witness for C1: the offset-62 match of "23.07.8164" at budget 2 lies
inside the 101 searched digits. -/
theorem c1_zeuge :
    positionVon (findeGeburtsdatumInPiMit mpmathNachkommastellen ("23.07.8164".data) none 2) =
        some 62 ∧
      62 + 8 ≤ (mpmathNachkommastellen 2).length :=
  ⟨by decide,
    c1_trefferbereich mpmathNachkommastellen ("23.07.8164".data) none 2 62 8
      (by decide) (by decide)⟩

/-- The part of the context excerpt left of the match: it equals the digit
slice from 10 before the match (clamped to the start) up to the match. -/
theorem fensterLinks (digits : List Char) (p L : Nat) (h : p + L ≤ digits.length) :
    ((digits.take (min digits.length (p + L + 10))).drop (p - 10)).take (p - (p - 10)) =
      (digits.take p).drop (p - 10) := by
  rw [List.drop_take, List.take_take, List.drop_take]
  congr 1
  omega

/-- The bracketed middle of the context excerpt: it is exactly the matched
pattern. -/
theorem fensterMitte (digits pat : List Char) (p : Nat)
    (hT : (digits.drop p).take pat.length = pat) (hLe : p + pat.length ≤ digits.length) :
    (((digits.take (min digits.length (p + pat.length + 10))).drop (p - 10)).take
        (p - (p - 10) + pat.length)).drop (p - (p - 10)) = pat := by
  rw [List.drop_take, List.drop_drop]
  have h1 : p - 10 + (p - (p - 10)) = p := by omega
  rw [h1, List.drop_take, List.take_take]
  have h2 : (p - (p - 10) + pat.length - (p - (p - 10))) ⊓
      (min digits.length (p + pat.length + 10) - p) = pat.length := by omega
  rw [h2]
  exact hT

/-- The part of the context excerpt right of the match: it equals the digit
slice from the end of the match up to 10 digits later (clamped to the end). -/
theorem fensterRechts (digits : List Char) (p L : Nat) (h : p + L ≤ digits.length) :
    ((digits.take (min digits.length (p + L + 10))).drop (p - 10)).drop (p - (p - 10) + L) =
      (digits.take (p + L + 10)).drop (p + L) := by
  rw [List.drop_take, List.drop_take, List.drop_drop]
  have h1 : p - 10 + (p - (p - 10) + L) = p + L := by omega
  rw [h1, List.drop_take, List.take_eq_take, List.length_drop]
  omega

/-- Characterisation of the `kontext` entry: ellipses around the clamped
10-digit window with the matched pattern in brackets. -/
theorem ergebnisAus_kontext (digits pat : List Char) (maxStellen p : Nat)
    (h : suche pat digits = some p) :
    kontextVon (ergebnisAus digits pat maxStellen) =
      some ("...".data
        ++ ((digits.take p).drop (p - 10))
        ++ '[' :: pat
        ++ ']' :: ((digits.take (p + pat.length + 10)).drop (p + pat.length))
        ++ "...".data) := by
  obtain ⟨hT, hLe⟩ := suche_some digits h
  unfold ergebnisAus
  rw [h]
  simp only [kontextVon, Option.some.injEq]
  rw [fensterLinks digits p pat.length hLe, fensterMitte digits pat p hT hLe,
    fensterRechts digits p pat.length hLe]
  simp [List.append_assoc]

/-- C6 (confirmed): for every match at zero-based offset p, the context
excerpt is the slice of the fractional digit string from 10 digits before
the match through 10 digits after the match's end, clamped to the string's
bounds — for p < 10 the left edge is the string's start, since the
truncated subtraction p - 10 is 0 — with the matched pattern wrapped in
square brackets and the whole excerpt wrapped in three-dot ellipses. -/
theorem c6_kontextfenster (ziffern : Nat → List Char) (geburtsdatum : List Char)
    (geburtszeit : Option (List Char)) (maxStellen p : Nat)
    (h : positionVon (findeGeburtsdatumInPiMit ziffern geburtsdatum geburtszeit maxStellen) =
      some p) :
    kontextVon (findeGeburtsdatumInPiMit ziffern geburtsdatum geburtszeit maxStellen) =
      some ("...".data
        ++ (((ziffern maxStellen).take p).drop (p - 10))
        ++ '[' :: musterAus geburtsdatum geburtszeit
        ++ ']' :: (((ziffern maxStellen).take
              (p + (musterAus geburtsdatum geburtszeit).length + 10)).drop
            (p + (musterAus geburtsdatum geburtszeit).length))
        ++ "...".data) := by
  obtain ⟨he, hs⟩ := positionVon_some h
  rw [finde_gleich_ergebnisAus _ _ _ _ he]
  exact ergebnisAus_kontext _ _ _ _ hs

/-- A digit string whose match for "01.01.2000" sits at offset 3, inside the
10-digit margin, so the left window edge clamps to the string's start. -/
def randZiffern : Nat → List Char := fun _ => ("123" ++ "01012000" ++ "9876543210987").data

/-- Witness for C6 at a match with offset 3 < 10: the window's left edge is
the start of the digit string. -/
theorem c6_zeuge :
    positionVon (findeGeburtsdatumInPiMit randZiffern ("01.01.2000".data) none 1) = some 3 ∧
      kontextVon (findeGeburtsdatumInPiMit randZiffern ("01.01.2000".data) none 1) =
        some ("...".data
          ++ (((randZiffern 1).take 3).drop (3 - 10))
          ++ '[' :: musterAus ("01.01.2000".data) none
          ++ ']' :: (((randZiffern 1).take
                (3 + (musterAus ("01.01.2000".data) none).length + 10)).drop
              (3 + (musterAus ("01.01.2000".data) none).length))
          ++ "...".data) :=
  ⟨by decide, c6_kontextfenster randZiffern ("01.01.2000".data) none 1 3 (by decide)⟩
